import Mathlib

/-!
# Verification of the gopherboy Game Boy emulator core

Shallow embedding of the emulator's MMU (with its write-observer map and
DMA engine), timer block, and video controller, translated from
`src/emulator/mmu.go`, `src/unnamed/part_000` (the edge-detecting timers)
and `src/unnamed/part_001` (the video controller).

Machine bytes are `Nat` values below 256 and addresses are `Nat` values
below 65536; every place the Go code wraps a `uint8`/`uint16` the model
takes an explicit `% 256` / `% 65536`.  Code paths that `panic` in Go are
`Option`-valued here, with `none` marking the panic.
-/

namespace Gopherboy

/-! ## Address map

Modelled from the spec: the memory-map constants (`bank0ROMAddr`,
`videoRAMAddr`, ..., `lastAddr`) and the region predicates
(`inBank0ROMArea`, ...) are declared in a repository file that is not part
of the sources at hand; they are modelled from the spec's address-space
partition: ROM bank 0 `[0x0000,0x4000)`, switchable ROM `[0x4000,0x8000)`,
VRAM `[0x8000,0xA000)`, external RAM `[0xA000,0xC000)`, work RAM
`[0xC000,0xE000)`, echo `[0xE000,0xFE00)`, OAM `[0xFE00,0xFEA0)`, invalid
`[0xFEA0,0xFF00)`, I/O `[0xFF00,0xFF80)`, HRAM `[0xFF80,0xFFFF]`. -/

def bank0ROMAddr : Nat := 0x0000
def bankedROMAddr : Nat := 0x4000
def videoRAMAddr : Nat := 0x8000
def bankedRAMAddr : Nat := 0xA000
def ramAddr : Nat := 0xC000
def ramMirrorAddr : Nat := 0xE000
def oamRAMAddr : Nat := 0xFE00
def invalidArea2Addr : Nat := 0xFEA0
def ioAddr : Nat := 0xFF00
def hramAddr : Nat := 0xFF80
def lastAddr : Nat := 0xFFFF

abbrev inBank0ROMArea (a : Nat) : Prop := a < 0x4000
abbrev inBankedROMArea (a : Nat) : Prop := 0x4000 ≤ a ∧ a < 0x8000
abbrev inVideoRAMArea (a : Nat) : Prop := 0x8000 ≤ a ∧ a < 0xA000
abbrev inBankedRAMArea (a : Nat) : Prop := 0xA000 ≤ a ∧ a < 0xC000
abbrev inRAMArea (a : Nat) : Prop := 0xC000 ≤ a ∧ a < 0xE000
abbrev inRAMMirrorArea (a : Nat) : Prop := 0xE000 ≤ a ∧ a < 0xFE00
abbrev inOAMArea (a : Nat) : Prop := 0xFE00 ≤ a ∧ a < 0xFEA0
abbrev inInvalidArea (a : Nat) : Prop := 0xFEA0 ≤ a ∧ a < 0xFF00
abbrev inIOArea (a : Nat) : Prop := 0xFF00 ≤ a ∧ a < 0xFF80
abbrev inHRAMArea (a : Nat) : Prop := 0xFF80 ≤ a ∧ a ≤ 0xFFFF

/-! ## Memory-register addresses

Modelled from the spec: the register-address constants (`dividerAddr`,
`tacAddr`, ...) come from the spec's bit-exact register table. -/

def dividerAddr : Nat := 0xFF04
def timaAddr : Nat := 0xFF05
def tmaAddr : Nat := 0xFF06
def tacAddr : Nat := 0xFF07
def ifAddr : Nat := 0xFF0F
def lcdcAddr : Nat := 0xFF40
def statAddr : Nat := 0xFF41
def scrollYAddr : Nat := 0xFF42
def scrollXAddr : Nat := 0xFF43
def lyAddr : Nat := 0xFF44
def dmaAddr : Nat := 0xFF46
def bgpAddr : Nat := 0xFF47
def ieAddr : Nat := 0xFFFF

/-- Tile-map base addresses.  Modelled from the spec: `0x9800` / `0x9C00`. -/
def tileMap0 : Nat := 0x9800
def tileMap1 : Nat := 0x9C00

/-- Tile-data base addresses.  Modelled from the spec: table 0 at `0x9000`
(signed tile indexes) and table 1 at `0x8000` (unsigned tile indexes). -/
def tileDataTable0 : Nat := 0x9000
def tileDataTable1 : Nat := 0x8000

/-- `dmaCycleLength` is the number of cycles a DMA transfer takes
(`mmu.go`). -/
def dmaCycleLength : Nat := 671

/-- Modelled from the spec: `asSigned` (referenced but not defined in the
sources at hand) reinterprets a byte as a signed 8-bit value, as the
`signed(tileId)` of the spec's tile addressing. -/
def asSigned (v : Nat) : Int :=
  if v < 128 then (v : Int) else (v : Int) - 256

/-- Modelled from the spec: `split16` (referenced but not defined in the
sources at hand) splits a 16-bit value into its lower and upper bytes; the
spec describes the DMA engine's use of it as `(cursor & 0xFF)`. -/
def split16 (n : Nat) : Nat × Nat := (n % 256, n / 256)

/-- An RGBA color, as in the video controller's `color` struct. -/
structure Color where
  r : Nat
  g : Nat
  b : Nat
  a : Nat
deriving DecidableEq

/-- Display configuration decoded from the LCDC register
(`lcdcConfig` in the video controller source). -/
structure LcdcConfig where
  lcdOn : Bool
  windowTileMapAddr : Nat
  windowOn : Bool
  windowBGTileDataTableAddr : Nat
  bgTileMapAddr : Nat
  spriteSize8x16 : Bool
  spritesOn : Bool
  windowBGOn : Bool
deriving DecidableEq

/-- The assembled machine state: the `mmu` struct's buffers and DMA
engine, the `environment`'s master interrupt flag, the edge-detecting
`timers` struct, and the `videoController` struct.  The MBC behind the
`mbc` interface is cartridge-specific code outside the sources at hand; it
is modelled abstractly by a pure read function `mbcRead` plus a log
`mbcWrites` of the writes forwarded to it.  The SDL renderer is modelled
by an abstract frame sink (`renderPoints`, `renderClears`,
`renderPresents`); the host FPS logging (wall-clock time) is not
modelled. -/
structure GB where
  bank0ROM : Nat → Nat
  videoRAM : Nat → Nat
  oamRAM : Nat → Nat
  ioRAM : Nat → Nat
  hram : Nat → Nat
  mbcRead : Nat → Nat
  mbcWrites : List (Nat × Nat)
  dmaActive : Bool
  dmaCursor : Nat
  dmaCycleCount : Nat
  interruptsEnabled : Bool
  cpuClock : Nat
  tima : Nat
  timaDelay : Nat
  frameTick : Nat
  vcLcdc : LcdcConfig
  vcTiles : Nat → Option (List Nat)
  vcScrollX : Int
  vcScrollY : Int
  vcPalette : Nat → Color
  renderPoints : List (Nat × Nat × Color)
  renderColor : Color
  renderClears : Nat
  renderPresents : Nat
  frameCnt : Nat

/-- `mmu.at`, read dispatch by region.  The `default:` branch of the Go
switch panics; it is `none` here. -/
def mmuAtO (s : GB) (a : Nat) : Option Nat :=
  if inBank0ROMArea a then some (s.bank0ROM (a - bank0ROMAddr))
  else if inBankedROMArea a then some (s.mbcRead a)
  else if inVideoRAMArea a then some (s.videoRAM (a - videoRAMAddr))
  else if inRAMArea a ∨ inBankedRAMArea a then some (s.mbcRead a)
  else if inRAMMirrorArea a then some (s.mbcRead (a - (ramMirrorAddr - ramAddr)))
  else if inOAMArea a then some (s.oamRAM (a - oamRAMAddr))
  else if inInvalidArea a then some 0xFF
  else if inIOArea a then some (s.ioRAM (a - ioAddr))
  else if inHRAMArea a then some (s.hram (a - hramAddr))
  else none

/-- Total read used by the other subsystems; the panic branch is proved
unreachable for 16-bit addresses (see the coverage theorem). -/
def mmuAt (s : GB) (a : Nat) : Nat :=
  (mmuAtO s a).getD 0

/-- `mmu.setNoNotify`, write dispatch by region, bypassing subscribers.
The `default:` branch of the Go switch panics; it is `none` here.  ROM and
(banked) RAM writes are forwarded to the MBC, recorded in `mbcWrites`;
invalid-area writes are dropped. -/
def mmuSetNoNotifyO (s : GB) (a v : Nat) : Option GB :=
  if inBank0ROMArea a ∨ inBankedROMArea a then
    some { s with mbcWrites := (a, v) :: s.mbcWrites }
  else if inVideoRAMArea a then
    some { s with videoRAM := fun x => if x = a - videoRAMAddr then v else s.videoRAM x }
  else if inRAMArea a ∨ inBankedRAMArea a then
    some { s with mbcWrites := (a, v) :: s.mbcWrites }
  else if inRAMMirrorArea a then
    some { s with mbcWrites := (a - (ramMirrorAddr - ramAddr), v) :: s.mbcWrites }
  else if inOAMArea a then
    some { s with oamRAM := fun x => if x = a - oamRAMAddr then v else s.oamRAM x }
  else if inInvalidArea a then
    some s
  else if inIOArea a then
    some { s with ioRAM := fun x => if x = a - ioAddr then v else s.ioRAM x }
  else if inHRAMArea a then
    some { s with hram := fun x => if x = a - hramAddr then v else s.hram x }
  else none

/-- Total silent write used by the other subsystems; the panic branch is
proved unreachable for 16-bit addresses (see the coverage theorem). -/
def mmuSetNoNotify (s : GB) (a v : Nat) : GB :=
  (mmuSetNoNotifyO s a v).getD s

/-- `mmu.onDMAWrite`: panics (`none`) when a DMA transfer is already
active; otherwise arms the engine with `cursor = val << 8`,
`cycleCount = 0` and returns `val` unchanged. -/
def onDMAWrite (s : GB) (v : Nat) : Option (GB × Nat) :=
  if s.dmaActive then none
  else some ({ s with dmaActive := true, dmaCursor := v * 256, dmaCycleCount := 0 }, v)

/-- `timers.onDividerWrite`: resets the system clock and stores 0. -/
def onDividerWrite (s : GB) (_v : Nat) : GB × Nat :=
  ({ s with cpuClock := 0 }, 0)

/-- `timers.onTACWrite`: keeps the low 3 bits and forces the unused upper
bits high. -/
def onTACWrite (v : Nat) : Nat :=
  0xF8 ||| (v &&& 0x07)

/-- `mmu.set`: the write path with subscriber notification.  The assembled
emulator registers exactly three observers: `onDMAWrite` at `0xFF46`
(`newMMU`), `onDividerWrite` at `0xFF04` and `onTACWrite` at `0xFF07`
(`newTimers`).  The observer's return value is the byte committed via
`setNoNotify`.  `none` marks a panic escaping from an observer. -/
def mmuSet (s : GB) (a v : Nat) : Option GB :=
  if a = dmaAddr then
    (onDMAWrite s v).map fun p => mmuSetNoNotify p.1 a p.2
  else if a = dividerAddr then
    let p := onDividerWrite s v
    some (mmuSetNoNotify p.1 a p.2)
  else if a = tacAddr then
    some (mmuSetNoNotify s a (onTACWrite v))
  else
    some (mmuSetNoNotify s a v)

/-- A pristine machine state: zeroed buffers and registers, DMA inactive,
as after construction with an all-zero cartridge (the renderer's draw
color starts white, as set in `newVideoController`). -/
def gb0 : GB where
  bank0ROM := fun _ => 0
  videoRAM := fun _ => 0
  oamRAM := fun _ => 0
  ioRAM := fun _ => 0
  hram := fun _ => 0
  mbcRead := fun _ => 0
  mbcWrites := []
  dmaActive := false
  dmaCursor := 0
  dmaCycleCount := 0
  interruptsEnabled := false
  cpuClock := 0
  tima := 0
  timaDelay := 0
  frameTick := 0
  vcLcdc := ⟨false, 0, false, 0, 0, false, false, false⟩
  vcTiles := fun _ => none
  vcScrollX := 0
  vcScrollY := 0
  vcPalette := fun _ => ⟨0, 0, 0, 0⟩
  renderPoints := []
  renderColor := ⟨255, 255, 255, 255⟩
  renderClears := 0
  renderPresents := 0
  frameCnt := 0

/-- The value the write path commits for a byte `v` written to address
`a`: the registered observer's return value where one exists, otherwise
`v` itself. -/
def observedValue (a v : Nat) : Nat :=
  if a = dividerAddr then 0
  else if a = tacAddr then onTACWrite v
  else v

/-- Addresses routed to buffers the MMU itself owns (VRAM, OAM, I/O,
HRAM). -/
abbrev ownedRegion (a : Nat) : Prop :=
  inVideoRAMArea a ∨ inOAMArea a ∨ inIOArea a ∨ inHRAMArea a

/-! ## The MMU's DMA engine (`mmu.tick`) -/

/-- The transfer of one DMA byte in `mmu.tick`: copy the byte at the
cursor to OAM at the cursor's lower byte via the silent-write path, then
increment the 16-bit cursor (`setNoNotify` never touches `dmaCursor`, so
the increment reads the pre-write value). -/
def dmaTransferByte (s : GB) : GB :=
  { mmuSetNoNotify s (oamRAMAddr + (split16 s.dmaCursor).1) (mmuAt s s.dmaCursor) with
    dmaCursor := (s.dmaCursor + 1) % 65536 }

/-- The elapsed-cycle bookkeeping of `mmu.tick`: deactivate once the count
has reached `dmaCycleLength`, otherwise count this cycle. -/
def dmaAdvanceCount (s : GB) : GB :=
  if dmaCycleLength ≤ s.dmaCycleCount then { s with dmaActive := false }
  else { s with dmaCycleCount := s.dmaCycleCount + 1 }

/-- One iteration of the loop in `mmu.tick`: while a DMA transfer is
active and the cursor's lower byte is (strictly) below `0x9F`, copy one
byte from the cursor into OAM and advance the cursor; independently,
count the elapsed cycle and deactivate once the count reaches
`dmaCycleLength`. -/
def mmuTickStep (s : GB) : GB :=
  if s.dmaActive then
    dmaAdvanceCount (if (split16 s.dmaCursor).1 < 0x9F then dmaTransferByte s else s)
  else s

/-- `mmu.tick(opTime)`: `opTime` iterations of the DMA-engine loop. -/
def mmuTick : Nat → GB → GB
  | 0, s => s
  | n + 1, s => mmuTick n (mmuTickStep s)

/-! ## The timer block (`timers`, edge-detecting variant) -/

/-- `parseTAC`: rate (Hz) selected by the low 2 bits and the running flag
in bit 2. -/
def parseTAC (tac : Nat) : Nat × Bool :=
  let speedBits := tac &&& 0x3
  let rate :=
    if speedBits = 0x0 then 4096
    else if speedBits = 0x1 then 262144
    else if speedBits = 0x2 then 65536
    else 16384
  (rate, tac &&& 0x4 = 0x4)

/-- The system-clock bit selected by the TAC rate, as in the `switch` on
`timaRate` inside `timers.tick` (any rate outside the four cases would
leave the Go `timaBit` variable at 0). -/
def timaBitOf (rate clk : Nat) : Nat :=
  if rate = 4096 then (clk >>> 9) &&& 0x1
  else if rate = 16384 then (clk >>> 7) &&& 0x1
  else if rate = 65536 then (clk >>> 5) &&& 0x1
  else if rate = 262144 then (clk >>> 3) &&& 0x1
  else 0

/-- The `timaBitAndEnabled` signal of `timers.tick`: 1 exactly when the
selected clock bit is 1 and the TAC running flag is set. -/
def timaSignal (tac clk : Nat) : Nat :=
  let p := parseTAC tac
  if timaBitOf p.1 clk = 1 ∧ p.2 then 1 else 0

/-- One iteration of the loop in `timers.tick` (the `tac` byte was read
once, before the loop): increment the 16-bit system clock, compute the
signal, increment TIMA on a falling edge, on overflow reload TIMA from TMA
and, when the master interrupt flag and IE bit-2 are both set, raise IF
bit-2 via the silent-write path; finally store the signal in `timaDelay`.
The struct-field assignments are gathered into one record update per
branch: the loop body's TMA/IE/IF reads see the same memory in either
ordering, because the only memory write of the body (the IF store) happens
after all three reads. -/
def timersStep (tac : Nat) (s : GB) : GB :=
  let clk := (s.cpuClock + 1) % 65536
  let sig := timaSignal tac clk
  if sig ≠ 1 ∧ s.timaDelay = 1 then
    if (s.tima + 1) % 256 = 0 then
      let timaInterruptEnabled := mmuAt s ieAddr &&& 0x04 = 0x04
      let base := { s with cpuClock := clk, tima := mmuAt s tmaAddr, timaDelay := sig }
      if s.interruptsEnabled ∧ timaInterruptEnabled then
        mmuSetNoNotify base ifAddr (mmuAt s ifAddr ||| 0x04)
      else
        base
    else
      { s with cpuClock := clk, tima := (s.tima + 1) % 256, timaDelay := sig }
  else
    { s with cpuClock := clk, timaDelay := sig }

/-- The per-cycle loop of `timers.tick` with the TAC byte fixed. -/
def timersLoop (tac : Nat) : Nat → GB → GB
  | 0, s => s
  | n + 1, s => timersLoop tac n (timersStep tac s)

/-- `timers.tick(amount)`: read TAC once, run the per-cycle loop, then
mirror the divider (high byte of the system clock) and TIMA into memory
via the silent-write path. -/
def timersTick (amount : Nat) (s : GB) : GB :=
  let tac := mmuAt s tacAddr
  let s := timersLoop tac amount s
  let s := mmuSetNoNotify s dividerAddr ((s.cpuClock >>> 8) % 256)
  mmuSetNoNotify s timaAddr s.tima

/-! ## The video controller (`videoController`) -/

/-- Screen and scanline timing constants from the video controller
source. -/
def screenWidth : Nat := 160

def screenHeight : Nat := 144

def scanLineOAMClocks : Nat := 80

def scanLineVRAMClocks : Nat := 172

def horizontalBlankClocks : Nat := 204

def scanLineFullClocks : Nat :=
  scanLineOAMClocks + scanLineVRAMClocks + horizontalBlankClocks

def verticalBlankClocks : Nat := 4560

def fullFrameClocks : Nat := scanLineFullClocks * screenHeight + verticalBlankClocks

/-- `loadLCDC`: decode the LCDC register byte into a display
configuration. -/
def loadLCDC (s : GB) : LcdcConfig :=
  let lcdc := mmuAt s lcdcAddr
  { lcdOn := lcdc &&& 0x80 = 0x80
    windowTileMapAddr := if lcdc &&& 0x40 = 0x40 then tileMap1 else tileMap0
    windowOn := lcdc &&& 0x20 = 0x20
    windowBGTileDataTableAddr :=
      if lcdc &&& 0x10 = 0x10 then tileDataTable1 else tileDataTable0
    bgTileMapAddr := if lcdc &&& 0x08 = 0x08 then tileMap1 else tileMap0
    spriteSize8x16 := lcdc &&& 0x04 = 0x04
    spritesOn := lcdc &&& 0x02 = 0x02
    windowBGOn := lcdc &&& 0x01 = 0x01 }

/-- `setMode`: keep the upper 6 bits of STAT and store the mode in the low
2 bits, through the direct register pointer.

Modelled from the spec: `mmu.pointerTo` (referenced but not defined in
the sources at hand) gives direct access to the MMU-owned I/O byte,
bypassing subscribers. -/
def setMode (s : GB) (mode : Nat) : GB :=
  let old := s.ioRAM (statAddr - ioAddr)
  { s with ioRAM := fun x => if x = statAddr - ioAddr then (old &&& 0xFC) ||| mode else s.ioRAM x }

/-- The STAT mode bits (low 2 bits of `0xFF41`). -/
def statMode (s : GB) : Nat :=
  mmuAt s statAddr &&& 0x3

/-- `loadBGPalette`: map each 2-bit dot code to a color; dot code 0 takes
the top two bits of BGP, and BGP shifts left (as a byte) after each
entry. -/
def loadBGPaletteAux : Nat → Nat → (Nat → Color) → (Nat → Color)
  | 0, _, acc => acc
  | n + 1, bgp, acc =>
    let colorType := (bgp &&& 0xC0) >>> 6
    let c : Color :=
      if colorType = 0x00 then ⟨0, 0, 0, 255⟩
      else if colorType = 0x01 then ⟨98, 78, 80, 255⟩
      else if colorType = 0x02 then ⟨219, 179, 180, 255⟩
      else ⟨255, 255, 255, 255⟩
    let dot := 4 - (n + 1)
    loadBGPaletteAux n ((bgp <<< 2) % 256) (fun d => if d = dot then c else acc d)

def loadBGPalette (s : GB) : Nat → Color :=
  loadBGPaletteAux 4 (mmuAt s bgpAddr) (fun _ => ⟨0, 0, 0, 0⟩)

/-- One row of a tile: per column, take bit 7 of the (shifting) lower and
upper bytes and combine them into a 2-bit dot code, shifting both bytes
left (as bytes) afterwards. -/
def tileRowAux : Nat → Nat → Nat → List Nat
  | 0, _, _ => []
  | n + 1, lower, upper =>
    let lowerBit := (lower &&& 0x80) >>> 7
    let upperBit := (upper &&& 0x80) >>> 7
    ((upperBit <<< 1) ||| lowerBit) ::
      tileRowAux n ((lower <<< 1) % 256) ((upper <<< 1) % 256)

/-- `loadTile`: find the tile's data address in the active data table
(signed indexes for table 0 at `0x9000`, unsigned for table 1 at
`0x8000`; an unknown table value panics, `none` here) and decode its 8
rows of dot codes. -/
def loadTileRows (s : GB) (tileDataAddr : Nat) : Nat → List Nat
  | 0 => []
  | n + 1 =>
    let y := 8 - (n + 1)
    let lower := mmuAt s (tileDataAddr + y * 2)
    let upper := mmuAt s (tileDataAddr + (y * 2 + 1))
    tileRowAux 8 lower upper ++ loadTileRows s tileDataAddr n

def loadTile (s : GB) (tile : Nat) : Option (List Nat) :=
  if s.vcLcdc.windowBGTileDataTableAddr = tileDataTable0 then
    let tileDataAddr := ((tileDataTable0 : Int) + asSigned tile * 16).toNat
    some (loadTileRows s tileDataAddr 8)
  else if s.vcLcdc.windowBGTileDataTableAddr = tileDataTable1 then
    some (loadTileRows s (tileDataTable1 + tile * 16) 8)
  else
    none

/-- `loadBGTiles`: decode all 256 background tiles from the active data
table into the tile cache. -/
def loadBGTilesAux (s : GB) : Nat → (Nat → Option (List Nat)) → Option (Nat → Option (List Nat))
  | 0, acc => some acc
  | n + 1, acc =>
    let i := 256 - (n + 1)
    match loadTile s i with
    | none => none
    | some d => loadBGTilesAux s n (fun t => if t = i then some d else acc t)

def loadBGTiles (s : GB) : Option (Nat → Option (List Nat)) :=
  loadBGTilesAux s 256 (fun _ => none)

/-- The background-coordinate wrap in `bgTileAt`: add the (signed) scroll
value, then add the plane size (256) if the result is negative or
subtract it if the result exceeds 256 (strictly). -/
def bgWrapCoord (scroll : Int) (p : Nat) : Int :=
  if (p : Int) + scroll < 0 then (p : Int) + scroll + 256
  else if (p : Int) + scroll > 256 then (p : Int) + scroll - 256
  else (p : Int) + scroll

/-- The tile-map offset computed in `bgTileAt`:
`(bgY/8)*32 + bgX/8` (both coordinates are non-negative after the wrap,
so Go's truncating division agrees with natural division). -/
def bgTileOffset (bgX bgY : Int) : Nat :=
  (bgY.toNat / 8) * 32 + bgX.toNat / 8

/-- `bgTileAt`: wrap the screen coordinates into the background plane,
read the tile ID from the active tile map, and return it with the
coordinates' offsets inside the tile. -/
def bgTileAt (s : GB) (x y : Nat) : Nat × Nat × Nat :=
  let bgX := bgWrapCoord s.vcScrollX x
  let bgY := bgWrapCoord s.vcScrollY y
  let tileAddr := (s.vcLcdc.bgTileMapAddr + bgTileOffset bgX bgY) % 65536
  (mmuAt s tileAddr, bgX.toNat % 8, bgY.toNat % 8)

/-- `drawScanLine`: for each screen column, look the pixel's tile up in
the cache (a missing tile ID panics, `none` here), read its dot code, set
the draw color from the background palette and emit the point to the
frame sink. -/
def drawScanLineAux (line : Nat) : Nat → Nat → GB → Option GB
  | 0, _, s => some s
  | n + 1, x, s =>
    let t := bgTileAt s x line
    match s.vcTiles t.1 with
    | none => none
    | some tileData =>
      let dotCode := (tileData.get? (t.2.2 * 8 + t.2.1)).getD 0
      let c := s.vcPalette dotCode
      drawScanLineAux line n (x + 1)
        { s with renderColor := c, renderPoints := (x, line, c) :: s.renderPoints }

def drawScanLine (s : GB) (line : Nat) : Option GB :=
  drawScanLineAux line screenWidth 0 s

/-- One iteration of the loop in `videoController.tick`: on `frameTick =
0` clear the sink and snapshot LCDC and ScrollY; write the current
scanline to LY through the write path; during the visible lines dispatch
on the position in the line (`0`: mode 2, snapshot ScrollX and the
palette; `scanLineOAMClocks`: mode 3, cache the background tiles;
`scanLineVRAMClocks`: mode 0, draw the scanline); otherwise mode 1, and on
the first VBlank tick raise IF bit-0 (when the master interrupt flag and
IE bit-0 are set) and present the frame; finally advance `frameTick`
modulo `fullFrameClocks`. -/
def vcIter (s : GB) : Option GB :=
  let s :=
    if s.frameTick = 0 then
      { s with renderClears := s.renderClears + 1
               vcLcdc := loadLCDC s
               vcScrollY := asSigned (mmuAt s scrollYAddr) }
    else s
  let currScanLine := s.frameTick / scanLineFullClocks
  (mmuSet s lyAddr (currScanLine % 256)).bind fun s =>
    let after : Option GB :=
      if s.frameTick < scanLineFullClocks * screenHeight then
        let scanLineProgress := s.frameTick % scanLineFullClocks
        if scanLineProgress = 0 then
          let s := setMode s 2
          some { s with vcScrollX := asSigned (mmuAt s scrollXAddr)
                        vcPalette := loadBGPalette s }
        else if scanLineProgress = scanLineOAMClocks then
          let s := setMode s 3
          (loadBGTiles s).map fun tiles => { s with vcTiles := tiles }
        else if scanLineProgress = scanLineVRAMClocks then
          let s := setMode s 0
          drawScanLine s currScanLine
        else some s
      else
        let s := setMode s 1
        if s.frameTick = scanLineFullClocks * screenHeight then
          let vblankEnabled := mmuAt s ieAddr &&& 0x01 = 0x01
          let withIF :=
            if s.interruptsEnabled ∧ vblankEnabled then
              mmuSet s ifAddr (mmuAt s ifAddr ||| 0x01)
            else some s
          withIF.map fun s =>
            { s with renderPresents := s.renderPresents + 1, frameCnt := s.frameCnt + 1 }
        else some s
    after.map fun s =>
      let ft := s.frameTick + 1
      { s with frameTick := if ft = fullFrameClocks then 0 else ft }

def vcLoop : Nat → GB → Option GB
  | 0, s => some s
  | n + 1, s => (vcIter s).bind (vcLoop n)

/-- `videoController.tick(opTime)`: a no-op when LCDC bit 7 (LCD-on) is
clear, otherwise `opTime` iterations of the per-cycle loop. -/
def vcTick (opTime : Nat) (s : GB) : Option GB :=
  if (loadLCDC s).lcdOn then vcLoop opTime s else some s

/-! ## Concrete machine states used by the claim witnesses -/

/-- A pristine machine with the LCD switched on (LCDC = `0x91`, the usual
post-boot value: LCD on, tile-data table 1, background on). -/
def gbOn : GB :=
  { gb0 with ioRAM := fun x => if x = lcdcAddr - ioAddr then 0x91 else 0 }

/-- A machine whose VRAM holds the distinctive byte `(i + 1) % 256` at
offset `i`, used as the source block of a DMA transfer from `0x8000`. -/
def gbC1 : GB :=
  { gb0 with videoRAM := fun i => (i + 1) % 256 }

/-- The DMA-source machine right after the write of `0x80` to the DMA
register: the engine is armed with cursor `0x8000`. -/
def gbC1armed : GB :=
  (mmuSet gbC1 dmaAddr 0x80).getD gbC1

/-- The DMA-source machine one transfer short of the stall: cursor at
`0x809E` with 158 cycles elapsed, as the armed machine stands after 158
cycles of `mmu.tick` (the OAM bytes below `0x9E` already copied are not
needed and left clear). -/
def gbC1near : GB :=
  { gbC1 with dmaActive := true, dmaCursor := 0x809E, dmaCycleCount := 158 }

/-- The timer-overflow scenario of the spec's seed scenario 2: TAC =
`0x05` (running, bit-3 source), TIMA = `0xFF`, TMA = `0x42`, IE bit-2 set,
master interrupts on, IF = 0, and the system clock at 15 with the
previous signal latched high, so that the next cycle (clock 16) is a bit-3
falling edge. -/
def gbC3 : GB :=
  { gb0 with
    ioRAM := fun x =>
      if x = tacAddr - ioAddr then 0x05
      else if x = tmaAddr - ioAddr then 0x42 else 0
    hram := fun x => if x = ieAddr - hramAddr then 0x04 else 0
    cpuClock := 15
    tima := 0xFF
    timaDelay := 1
    interruptsEnabled := true }

/-- A machine in the middle of visible scanline 0: LCD on (LCDC =
`0x91`), STAT mode bits at 3 (VRAM transfer), with the LCDC snapshot, the
tile cache and the palette exactly as the ticks at positions 0 and 80
leave them for an all-zero VRAM and BGP = 0 (every tile decodes to 64 zero
dot codes and dot code 0 maps to black).  `frameTick` is position 172 of
line 0. -/
def gbAt172 : GB :=
  { gb0 with
    ioRAM := fun x =>
      if x = lcdcAddr - ioAddr then 0x91
      else if x = statAddr - ioAddr then 3 else 0
    frameTick := 172
    vcLcdc := ⟨true, tileMap0, false, tileDataTable1, tileMap0, false, false, false⟩
    vcTiles := fun _ => some (List.replicate 64 0)
    vcPalette := fun _ => ⟨0, 0, 0, 255⟩ }

/-- The same mid-scanline machine as `gbAt172` but at position-in-line
252, the position the spec says starts HBlank. -/
def gbAt252 : GB :=
  { gbAt172 with frameTick := 252 }

/-- A machine that turned its LCD off mid-frame: LCDC = 0, but
`frameTick` = 457 and the LY byte = 1, exactly as `tick` leaves them after
one full scanline with the LCD on (nothing in the code resets them when
LCDC bit 7 is cleared). -/
def gbLcdOff : GB :=
  { gb0 with
    ioRAM := fun x => if x = lyAddr - ioAddr then 1 else 0
    frameTick := 457 }

/-- A machine with a DMA transfer in flight. -/
def gbDmaActive : GB :=
  { gb0 with dmaActive := true, dmaCursor := 0x8000, dmaCycleCount := 3 }

/-! ## C9: the region dispatch covers the whole 16-bit address space -/

set_option maxHeartbeats 2000000 in
/-- C9: for every 16-bit address, both the MMU's read dispatch (`at`) and
its silent-write dispatch (`setNoNotify`) reach one of the defined region
cases, so the `Unexpected memory address` panic branch (`none` in the
model) is unreachable. -/
theorem c9_region_dispatch_total (s : GB) (a v : Nat) (h : a ≤ lastAddr) :
    (mmuAtO s a).isSome = true ∧ (mmuSetNoNotifyO s a v).isSome = true := by
  unfold lastAddr at h
  unfold mmuAtO mmuSetNoNotifyO
  constructor <;> (split_ifs <;> first | rfl | omega)

/-- Witness for C9 at the concrete address `0x1234`. -/
theorem c9_region_dispatch_total_witness :
    (0x1234 ≤ lastAddr) ∧
      ((mmuAtO gb0 0x1234).isSome = true ∧ (mmuSetNoNotifyO gb0 0x1234 7).isSome = true) :=
  ⟨by decide, c9_region_dispatch_total gb0 0x1234 7 (by decide)⟩

/-! ## C8: TAC writes are sanitized to `0xF8 ||| (v &&& 0x07)` -/

/-- C8: a write of any byte `v` to TAC (`0xFF07`) through the MMU's write
path commits `0xF8 ||| (v &&& 0x07)` to the I/O byte, and a read of
`0xFF07` of the resulting state returns exactly that byte (reads are pure,
so every later read returns it until the next write).  In particular
`0x00 ↦ 0xF8`, `0x05 ↦ 0xFD`, `0xFF ↦ 0xFF`. -/
theorem c8_tac_write_sanitized (s : GB) (v : Nat) :
    mmuSet s tacAddr v = some (mmuSetNoNotify s tacAddr (0xF8 ||| (v &&& 0x07)))
    ∧ mmuAt (mmuSetNoNotify s tacAddr (0xF8 ||| (v &&& 0x07))) tacAddr
        = 0xF8 ||| (v &&& 0x07) :=
  ⟨rfl, rfl⟩

/-! ## C10: an idle-engine DMA write stores the value and arms the engine -/

set_option maxHeartbeats 1000000 in
/-- C10: when no DMA transfer is active, writing a byte `V` to the DMA
register `0xFF46` arms the engine (`active`, `cursor = V <<< 8`,
`elapsed = 0`) and stores `V` itself into the I/O byte, so a subsequent
read of `0xFF46` returns `V`. -/
theorem c10_dma_write_stores_value (s : GB) (v : Nat)
    (hact : s.dmaActive = false) (_hv : v < 256) :
    (mmuSet s dmaAddr v).map
        (fun t => (t.dmaActive, t.dmaCursor, t.dmaCycleCount, mmuAt t dmaAddr))
      = some (true, v * 256, 0, v) := by
  unfold mmuSet onDMAWrite
  rw [if_pos rfl, hact]
  rfl

/-- Witness for C10: writing `0xC1` to the idle machine arms a transfer
from `0xC100` and a read of `0xFF46` returns `0xC1`. -/
theorem c10_dma_write_stores_value_witness :
    (gb0.dmaActive = false ∧ 0xC1 < 256) ∧
      (mmuSet gb0 dmaAddr 0xC1).map
          (fun t => (t.dmaActive, t.dmaCursor, t.dmaCycleCount, mmuAt t dmaAddr))
        = some (true, 0xC100, 0, 0xC1) :=
  ⟨⟨rfl, by decide⟩, c10_dma_write_stores_value gb0 0xC1 rfl (by decide)⟩

/-! ## C5: a DMA write while a transfer is active panics -/

/-- C5 counterexample: starting a second DMA transfer while one is active
is not tolerated: the first DMA write succeeds, but a second write to
`0xFF46` before the transfer ends hits the `panic` in `onDMAWrite`
(`none` in the model), so a runtime error does escape and no restart
happens. -/
theorem c5_counterexample_second_dma_write_panics :
    (mmuSet gb0 dmaAddr 0x80).isSome = true
    ∧ ((mmuSet gb0 dmaAddr 0x80).bind fun s => mmuSet s dmaAddr 0x90) = none := by
  constructor <;> rfl

/-- C5 amended: writing any value to the DMA register `0xFF46` while a
transfer is active makes `onDMAWrite` panic — the write neither restarts
the transfer nor is ignored, and the error is fatal. -/
theorem c5_active_dma_write_panics (s : GB) (v : Nat) (h : s.dmaActive = true) :
    mmuSet s dmaAddr v = none := by
  unfold mmuSet onDMAWrite
  rw [if_pos rfl, h]
  rfl

/-- Witness for C5 on a machine with a transfer in flight. -/
theorem c5_active_dma_write_panics_witness :
    gbDmaActive.dmaActive = true ∧ mmuSet gbDmaActive dmaAddr 0x12 = none :=
  ⟨rfl, c5_active_dma_write_panics gbDmaActive 0x12 rfl⟩

/-! ## C6: read after write through the MMU-owned buffers -/

theorem setNo_vram (s : GB) (a v : Nat) (h : inVideoRAMArea a) :
    mmuSetNoNotify s a v
      = { s with videoRAM := fun x => if x = a - videoRAMAddr then v else s.videoRAM x } := by
  unfold mmuSetNoNotify mmuSetNoNotifyO
  rw [if_neg (by omega), if_pos (by omega), Option.getD_some]

theorem setNo_oam (s : GB) (a v : Nat) (h : inOAMArea a) :
    mmuSetNoNotify s a v
      = { s with oamRAM := fun x => if x = a - oamRAMAddr then v else s.oamRAM x } := by
  unfold mmuSetNoNotify mmuSetNoNotifyO
  have n1 : ¬(inBank0ROMArea a ∨ inBankedROMArea a) := by omega
  have n2 : ¬inVideoRAMArea a := by omega
  have n3 : ¬(inRAMArea a ∨ inBankedRAMArea a) := by omega
  have n4 : ¬inRAMMirrorArea a := by omega
  rw [if_neg n1, if_neg n2, if_neg n3, if_neg n4, if_pos h, Option.getD_some]

theorem setNo_io (s : GB) (a v : Nat) (h : inIOArea a) :
    mmuSetNoNotify s a v
      = { s with ioRAM := fun x => if x = a - ioAddr then v else s.ioRAM x } := by
  unfold mmuSetNoNotify mmuSetNoNotifyO
  have n1 : ¬(inBank0ROMArea a ∨ inBankedROMArea a) := by omega
  have n2 : ¬inVideoRAMArea a := by omega
  have n3 : ¬(inRAMArea a ∨ inBankedRAMArea a) := by omega
  have n4 : ¬inRAMMirrorArea a := by omega
  have n5 : ¬inOAMArea a := by omega
  have n6 : ¬inInvalidArea a := by omega
  rw [if_neg n1, if_neg n2, if_neg n3, if_neg n4, if_neg n5, if_neg n6, if_pos h,
    Option.getD_some]

theorem setNo_hram (s : GB) (a v : Nat) (h : inHRAMArea a) :
    mmuSetNoNotify s a v
      = { s with hram := fun x => if x = a - hramAddr then v else s.hram x } := by
  unfold mmuSetNoNotify mmuSetNoNotifyO
  have n1 : ¬(inBank0ROMArea a ∨ inBankedROMArea a) := by omega
  have n2 : ¬inVideoRAMArea a := by omega
  have n3 : ¬(inRAMArea a ∨ inBankedRAMArea a) := by omega
  have n4 : ¬inRAMMirrorArea a := by omega
  have n5 : ¬inOAMArea a := by omega
  have n6 : ¬inInvalidArea a := by omega
  have n7 : ¬inIOArea a := by omega
  rw [if_neg n1, if_neg n2, if_neg n3, if_neg n4, if_neg n5, if_neg n6, if_neg n7,
    if_pos h, Option.getD_some]

theorem at_vram (s : GB) (a : Nat) (h : inVideoRAMArea a) :
    mmuAt s a = s.videoRAM (a - videoRAMAddr) := by
  unfold mmuAt mmuAtO
  have n1 : ¬inBank0ROMArea a := by omega
  have n2 : ¬inBankedROMArea a := by omega
  rw [if_neg n1, if_neg n2, if_pos h, Option.getD_some]

theorem at_oam (s : GB) (a : Nat) (h : inOAMArea a) :
    mmuAt s a = s.oamRAM (a - oamRAMAddr) := by
  unfold mmuAt mmuAtO
  have n1 : ¬inBank0ROMArea a := by omega
  have n2 : ¬inBankedROMArea a := by omega
  have n3 : ¬inVideoRAMArea a := by omega
  have n4 : ¬(inRAMArea a ∨ inBankedRAMArea a) := by omega
  have n5 : ¬inRAMMirrorArea a := by omega
  rw [if_neg n1, if_neg n2, if_neg n3, if_neg n4, if_neg n5, if_pos h, Option.getD_some]

theorem at_io (s : GB) (a : Nat) (h : inIOArea a) :
    mmuAt s a = s.ioRAM (a - ioAddr) := by
  unfold mmuAt mmuAtO
  have n1 : ¬inBank0ROMArea a := by omega
  have n2 : ¬inBankedROMArea a := by omega
  have n3 : ¬inVideoRAMArea a := by omega
  have n4 : ¬(inRAMArea a ∨ inBankedRAMArea a) := by omega
  have n5 : ¬inRAMMirrorArea a := by omega
  have n6 : ¬inOAMArea a := by omega
  have n7 : ¬inInvalidArea a := by omega
  rw [if_neg n1, if_neg n2, if_neg n3, if_neg n4, if_neg n5, if_neg n6, if_neg n7,
    if_pos h, Option.getD_some]

theorem at_hram (s : GB) (a : Nat) (h : inHRAMArea a) :
    mmuAt s a = s.hram (a - hramAddr) := by
  unfold mmuAt mmuAtO
  have n1 : ¬inBank0ROMArea a := by omega
  have n2 : ¬inBankedROMArea a := by omega
  have n3 : ¬inVideoRAMArea a := by omega
  have n4 : ¬(inRAMArea a ∨ inBankedRAMArea a) := by omega
  have n5 : ¬inRAMMirrorArea a := by omega
  have n6 : ¬inOAMArea a := by omega
  have n7 : ¬inInvalidArea a := by omega
  have n8 : ¬inIOArea a := by omega
  rw [if_neg n1, if_neg n2, if_neg n3, if_neg n4, if_neg n5, if_neg n6, if_neg n7,
    if_neg n8, if_pos h, Option.getD_some]

/-- A silent write to an MMU-owned buffer region is read back verbatim. -/
theorem ownedRoundTrip (s : GB) (a v : Nat) (h : ownedRegion a) :
    mmuAt (mmuSetNoNotify s a v) a = v := by
  rcases h with h | h | h | h
  · rw [setNo_vram s a v h, at_vram _ a h]
    simp
  · rw [setNo_oam s a v h, at_oam _ a h]
    simp
  · rw [setNo_io s a v h, at_io _ a h]
    simp
  · rw [setNo_hram s a v h, at_hram _ a h]
    simp

/-- C6 counterexample: the read-after-write invariant fails outside the
MMU-owned regions.  `0xFEA0` lies in the invalid area and has no
registered observer, yet after `write(0xFEA0, 0x12)` a read of `0xFEA0`
returns the constant `0xFF`, which is neither `0x12` nor an observer's
value. -/
theorem c6_counterexample_invalid_area :
    ((mmuSet gb0 0xFEA0 0x12).map fun s => mmuAt s 0xFEA0) = some 0xFF
    ∧ observedValue 0xFEA0 0x12 = 0x12
    ∧ (0xFF : Nat) ≠ 0x12 := by
  refine ⟨rfl, rfl, by decide⟩

/-- C6 amended: for every address in the regions the MMU itself owns
(VRAM, OAM, I/O, HRAM), after a successful `write(addr, v)` — from any
prior state — a `read(addr)` returns `v` itself or, at the three
addresses with a registered observer, the value that observer returned
for `v` (`0` for DIV, `0xF8 ||| (v &&& 7)` for TAC, `v` for DMA).  For
ROM/RAM/echo addresses the result is MBC-dependent and for the invalid
area reads return `0xFF`, so the claim's unrestricted form fails. -/
theorem c6_read_after_write_owned (s : GB) (a v : Nat) (s' : GB)
    (hreg : ownedRegion a) (hset : mmuSet s a v = some s') :
    mmuAt s' a = observedValue a v := by
  unfold mmuSet at hset
  by_cases hdma : a = dmaAddr
  · subst hdma
    rw [if_pos rfl] at hset
    unfold onDMAWrite at hset
    by_cases hact : s.dmaActive = true
    · rw [if_pos hact] at hset
      exact absurd hset (by simp)
    · rw [if_neg hact] at hset
      replace hset := Option.some.inj hset
      rw [← hset, ownedRoundTrip _ _ _ hreg]
      rfl
  · rw [if_neg hdma] at hset
    by_cases hdiv : a = dividerAddr
    · rw [if_pos hdiv] at hset
      unfold onDividerWrite at hset
      simp only [Option.some_inj] at hset
      rw [← hset, ownedRoundTrip _ _ _ hreg, observedValue, hdiv]
      rw [if_pos rfl]
    · rw [if_neg hdiv] at hset
      by_cases htac : a = tacAddr
      · rw [if_pos htac] at hset
        simp only [Option.some_inj] at hset
        rw [← hset, ownedRoundTrip _ _ _ hreg, observedValue, htac]
        rw [if_neg (by decide), if_pos rfl]
      · rw [if_neg htac] at hset
        simp only [Option.some_inj] at hset
        rw [← hset, ownedRoundTrip _ _ _ hreg, observedValue,
          if_neg hdiv, if_neg htac]

/-! ## C4: tick with the LCD off -/

/-- C4 counterexample: with the LCD off, `tick` is indeed a no-op, but
nothing resets `frameTick` or LY.  First, from reset with the LCD on, one
tick followed by writing 0 to LCDC reaches a state with the LCD off and
`frameTick = 1 ≠ 0`.  Second, `gbLcdOff` — its registers exactly as `tick`
leaves them after one scanline (`frameTick = 457`, LY byte 1) with LCDC
cleared — has the LCD off, `tick` leaves it unchanged, yet `frameTick =
457 ≠ 0` and LY reads 1, not 0. -/
theorem c4_counterexample_lcd_off_keeps_state :
    ((vcTick 1 gbOn).bind (fun t => mmuSet t lcdcAddr 0)).map
        (fun t => ((loadLCDC t).lcdOn, t.frameTick)) = some (false, 1)
    ∧ (loadLCDC gbLcdOff).lcdOn = false
    ∧ vcTick 5 gbLcdOff = some gbLcdOff
    ∧ gbLcdOff.frameTick = 457
    ∧ mmuAt gbLcdOff lyAddr = 1 := by
  refine ⟨by decide, by decide, rfl, by decide, by decide⟩

/-- C4 amended: whenever LCDC bit 7 is 0, `videoController.tick(n)` is a
complete no-op for any `n`: the state is returned unchanged, so
`frameTick` does not advance (it keeps its current value, which is 0 only
if it already was 0) and a read of LY returns the previously stored LY
byte (0 only if it already was 0). -/
theorem c4_lcd_off_tick_noop (s : GB) (n : Nat) (h : (loadLCDC s).lcdOn = false) :
    vcTick n s = some s
    ∧ (vcTick n s).map (fun t => (t.frameTick, mmuAt t lyAddr))
        = some (s.frameTick, mmuAt s lyAddr) := by
  have h1 : vcTick n s = some s := by
    unfold vcTick
    simp [h]
  exact ⟨h1, by rw [h1]; rfl⟩

/-- Witness for C4 on the pristine machine (LCDC byte 0). -/
theorem c4_lcd_off_tick_noop_witness :
    (loadLCDC gb0).lcdOn = false
    ∧ (vcTick 3 gb0 = some gb0
      ∧ (vcTick 3 gb0).map (fun t => (t.frameTick, mmuAt t lyAddr))
          = some (gb0.frameTick, mmuAt gb0 lyAddr)) :=
  ⟨by decide, c4_lcd_off_tick_noop gb0 3 (by decide)⟩

/-! ## C2: the scanline is emitted at position 172, not 252 -/

set_option maxRecDepth 4000 in
/-- C2 (refuted): on a visible scanline the tick at position-in-line 172 —
the `scanLineVRAMClocks` case, 80 cycles before the claimed position
252 — enters mode 0 and emits all 160 pixels of the line: from `gbAt172`
(mode bits 3, nothing emitted) one tick leaves STAT mode 0 and 160 points
in the frame sink.  At position 252 itself (`gbAt252`) a tick emits
nothing and leaves the mode bits at 3. -/
theorem c2_hblank_at_172_not_252 :
    ((vcTick 1 gbAt172).map fun s => (s.renderPoints.length, statMode s, s.frameTick))
        = some (160, 0, 173)
    ∧ ((vcTick 1 gbAt252).map fun s => (s.renderPoints.length, statMode s, s.frameTick))
        = some (0, 3, 253) := by
  refine ⟨by decide, by decide⟩

/-! ## C1: the DMA engine copies 159 bytes, not 160 -/

/-- A silent write inside the OAM region leaves every other OAM offset
unchanged. -/
theorem setNo_oam_other (s : GB) (a v i : Nat) (h : inOAMArea a)
    (hne : i ≠ a - oamRAMAddr) :
    (mmuSetNoNotify s a v).oamRAM i = s.oamRAM i := by
  rw [setNo_oam s a v h]
  exact if_neg hne

set_option maxRecDepth 2000 in
/-- Each DMA-engine cycle keeps the cursor inside `[0x8000, 0x809F]` and
never writes OAM offset `0x9F`: the copy guard is the strict
`lower < 0x9F`, so the cursor stalls at `0x809F` without transferring its
byte. -/
theorem dmaStepInvariant (s : GB)
    (h1 : 0x8000 ≤ s.dmaCursor) (h2 : s.dmaCursor ≤ 0x809F) (h3 : s.oamRAM 0x9F = 0) :
    0x8000 ≤ (mmuTickStep s).dmaCursor ∧ (mmuTickStep s).dmaCursor ≤ 0x809F
      ∧ (mmuTickStep s).oamRAM 0x9F = 0 := by
  have hadv : ∀ t : GB, (dmaAdvanceCount t).dmaCursor = t.dmaCursor
      ∧ (dmaAdvanceCount t).oamRAM = t.oamRAM := by
    intro t
    unfold dmaAdvanceCount
    split_ifs <;> exact ⟨rfl, rfl⟩
  have htbCursor : (dmaTransferByte s).dmaCursor = (s.dmaCursor + 1) % 65536 := rfl
  have htbOam : (dmaTransferByte s).oamRAM
      = (mmuSetNoNotify s (oamRAMAddr + (split16 s.dmaCursor).1)
          (mmuAt s s.dmaCursor)).oamRAM := rfl
  unfold mmuTickStep
  by_cases ha : s.dmaActive = true
  · rw [if_pos ha]
    by_cases hl : (split16 s.dmaCursor).1 < 0x9F
    · rw [if_pos hl, (hadv _).1, (hadv _).2, htbCursor, htbOam,
        setNo_oam_other s _ _ _ (by unfold split16 oamRAMAddr at *; omega)
          (by unfold split16 oamRAMAddr at *; omega)]
      unfold split16 at hl
      exact ⟨by omega, by omega, h3⟩
    · rw [if_neg hl, (hadv _).1, (hadv _).2]
      exact ⟨h1, h2, h3⟩
  · simp only [Bool.not_eq_true] at ha
    rw [ha]
    exact ⟨h1, h2, h3⟩

/-- From any armed state with cursor in `[0x8000, 0x809F]` and OAM byte
`0x9F` still clear, no number of `mmu.tick` cycles ever writes OAM offset
`0x9F`. -/
theorem dmaNeverWritesLastByte (n : Nat) (s : GB)
    (h1 : 0x8000 ≤ s.dmaCursor) (h2 : s.dmaCursor ≤ 0x809F) (h3 : s.oamRAM 0x9F = 0) :
    (mmuTick n s).oamRAM 0x9F = 0 := by
  induction n generalizing s with
  | zero => exact h3
  | succ n ih =>
    have hs := dmaStepInvariant s h1 h2 h3
    exact ih (mmuTickStep s) hs.1 hs.2.1 hs.2.2

set_option maxRecDepth 4000 in
/-- C1 (refuted): the DMA write of `0x80` over VRAM holding `(i+1) % 256`
at offset `i` arms the engine at `0x8000`, and `mmu.tick` copies one byte
per cycle in order (`oam[0x00] = 0x01` after one cycle, `oam[0x01] = 0x02`
after two); from the near-stall state the 159th byte `oam[0x9E] = 0x9F` is
copied and the cursor reaches `0x809F`, where further cycles copy nothing
(the guard is the strict `lower < 0x9F`) while the engine stays active;
OAM offset `0x9F` is still `0` and — by `dmaNeverWritesLastByte` — stays
`0` after any number of cycles from the armed state, even though the
source byte at `0x809F` is `0xA0`: only 159 of the claimed 160 bytes ever
appear. -/
theorem c1_dma_copies_only_159_bytes :
    (gbC1armed.dmaActive = true ∧ gbC1armed.dmaCursor = 0x8000)
    ∧ ((mmuTick 1 gbC1armed).oamRAM 0x00 = 0x01
      ∧ (mmuTick 2 gbC1armed).oamRAM 0x01 = 0x02
      ∧ (mmuTick 2 gbC1armed).dmaCursor = 0x8002)
    ∧ ((mmuTick 1 gbC1near).oamRAM 0x9E = 0x9F
      ∧ (mmuTick 1 gbC1near).dmaCursor = 0x809F
      ∧ (mmuTick 5 gbC1near).oamRAM 0x9F = 0
      ∧ (mmuTick 5 gbC1near).dmaCursor = 0x809F
      ∧ (mmuTick 5 gbC1near).dmaActive = true)
    ∧ mmuAt gbC1armed 0x809F = 0xA0
    ∧ ∀ n, (mmuTick n gbC1armed).oamRAM 0x9F = 0 :=
  ⟨by decide, by decide, by decide, by decide,
    fun n => dmaNeverWritesLastByte n gbC1armed (by decide) (by decide) (by decide)⟩

/-! ## C7: background coordinates and tile index -/

/-- C7 counterexample: the claim's `bgX = (x + scrollX) mod 256` fails at
the wrap boundary: for `x = 159` and SCX = `97` (interpreted through
`asSigned`, still `97`), `bgTileAt`'s wrap leaves `bgX = 256` — the code
only subtracts the plane size when the sum strictly exceeds 256 — while
`(159 + 97) mod 256 = 0`; the tile-map offset becomes 32 instead of the
claimed `(bgY/8)*32 + 0 = 0`. -/
theorem c7_counterexample_wrap_boundary :
    bgWrapCoord (asSigned 97) 159 = 256
    ∧ ((159 + 97 : Int) % 256) = 0
    ∧ bgTileOffset (bgWrapCoord (asSigned 97) 159) (bgWrapCoord (asSigned 0) 0) = 32 := by
  decide

/-- C7 amended: for every screen coordinate `x < 160` on line `y < 144`
and SCX/SCY bytes `sx`/`sy` (which `bgTileAt` first reinterprets as signed
via `asSigned`), as long as neither wrapped sum lands exactly on 256, the
background coordinates computed by `bgTileAt` equal `(x + sx) mod 256` and
`(y + sy) mod 256`, and the tile-map offset is
`(bgY / 8) * 32 + bgX / 8`; when `x + asSigned sx = 256` (or the `y`
analogue) the code leaves the coordinate at 256 instead of 0. -/
theorem c7_bg_coordinates_mod256 (x y sx sy : Nat)
    (hx : x < 160) (hy : y < 144) (hsx : sx < 256) (hsy : sy < 256)
    (hbx : (x : Int) + asSigned sx ≠ 256) (hby : (y : Int) + asSigned sy ≠ 256) :
    bgWrapCoord (asSigned sx) x = (((x + sx) % 256 : Nat) : Int)
    ∧ bgWrapCoord (asSigned sy) y = (((y + sy) % 256 : Nat) : Int)
    ∧ bgTileOffset (bgWrapCoord (asSigned sx) x) (bgWrapCoord (asSigned sy) y)
        = (((y + sy) % 256) / 8) * 32 + ((x + sx) % 256) / 8 := by
  have key : ∀ (p v : Nat), p < 160 → v < 256 → (p : Int) + asSigned v ≠ 256 →
      bgWrapCoord (asSigned v) p = (((p + v) % 256 : Nat) : Int) := by
    intro p v hp hv hne
    by_cases hs : v < 128
    · have ha : asSigned v = (v : Int) := by simp [asSigned, hs]
      rw [ha] at hne
      unfold bgWrapCoord
      rw [ha]
      split_ifs <;> omega
    · have ha : asSigned v = (v : Int) - 256 := by simp [asSigned, hs]
      rw [ha] at hne
      unfold bgWrapCoord
      rw [ha]
      split_ifs <;> omega
  have h1 := key x sx hx hsx hbx
  have h2 := key y sy (by omega) hsy hby
  refine ⟨h1, h2, ?_⟩
  rw [bgTileOffset, h1, h2]
  omega

/-- Witness for C7 at `x = 10`, `y = 20`, SCX = 200, SCY = 250. -/
theorem c7_bg_coordinates_mod256_witness :
    (10 < 160 ∧ 20 < 144 ∧ 200 < 256 ∧ 250 < 256
      ∧ ((10 : Nat) : Int) + asSigned 200 ≠ 256
      ∧ ((20 : Nat) : Int) + asSigned 250 ≠ 256)
    ∧ (bgWrapCoord (asSigned 200) 10 = (((10 + 200) % 256 : Nat) : Int)
      ∧ bgWrapCoord (asSigned 250) 20 = (((20 + 250) % 256 : Nat) : Int)
      ∧ bgTileOffset (bgWrapCoord (asSigned 200) 10) (bgWrapCoord (asSigned 250) 20)
          = (((20 + 250) % 256) / 8) * 32 + ((10 + 200) % 256) / 8) :=
  ⟨⟨by decide, by decide, by decide, by decide, by decide, by decide⟩,
    c7_bg_coordinates_mod256 10 20 200 250 (by decide) (by decide) (by decide)
      (by decide) (by decide) (by decide)⟩

/-! ## C3: TIMA edge detection, overflow reload and interrupt -/

set_option maxHeartbeats 3000000 in
/-- C3: for each T-cycle of `timers.tick` (one `timersStep`, which
`timersLoop`/`timersTick` apply once per cycle with the TAC byte read once
up front), TIMA is incremented exactly when the previous cycle's signal
(`timaDelay`) was 1 and this cycle's signal (TAC-selected bit of the
incremented system clock AND the running flag) is 0; on an increment that
overflows from `0xFF`, TIMA is reloaded from TMA, and IF bit-2 is raised
if and only if the master interrupt flag and IE bit-2 are both set;
finally the new signal is latched into `timaDelay`. -/
theorem c3_tima_falling_edge (s : GB) (htima : s.tima < 256) :
    (timersStep (mmuAt s tacAddr) s).tima
        = (if s.timaDelay = 1 ∧ timaSignal (mmuAt s tacAddr) ((s.cpuClock + 1) % 65536) = 0 then
            (if s.tima = 255 then mmuAt s tmaAddr else s.tima + 1)
          else s.tima)
    ∧ (timersStep (mmuAt s tacAddr) s).timaDelay
        = timaSignal (mmuAt s tacAddr) ((s.cpuClock + 1) % 65536)
    ∧ mmuAt (timersStep (mmuAt s tacAddr) s) ifAddr
        = (if s.timaDelay = 1 ∧ timaSignal (mmuAt s tacAddr) ((s.cpuClock + 1) % 65536) = 0
              ∧ s.tima = 255 ∧ s.interruptsEnabled = true ∧ mmuAt s ieAddr &&& 0x04 = 0x04 then
            mmuAt s ifAddr ||| 0x04
          else mmuAt s ifAddr) := by
  have hsig01 : timaSignal (mmuAt s tacAddr) ((s.cpuClock + 1) % 65536) = 0
      ∨ timaSignal (mmuAt s tacAddr) ((s.cpuClock + 1) % 65536) = 1 := by
    unfold timaSignal
    by_cases h : timaBitOf (parseTAC (mmuAt s tacAddr)).1 ((s.cpuClock + 1) % 65536) = 1
        ∧ (parseTAC (mmuAt s tacAddr)).2
    · right
      simp [h]
    · left
      simp [h]
  have hrt : ∀ (t : GB) (v : Nat), mmuAt (mmuSetNoNotify t ifAddr v) ifAddr = v :=
    fun t v => ownedRoundTrip t ifAddr v (by decide)
  have hpt : ∀ (t : GB) (a v : Nat), (mmuSetNoNotify t a v).tima = t.tima := by
    intro t a v
    unfold mmuSetNoNotify mmuSetNoNotifyO
    split_ifs <;> rfl
  have hpd : ∀ (t : GB) (a v : Nat), (mmuSetNoNotify t a v).timaDelay = t.timaDelay := by
    intro t a v
    unfold mmuSetNoNotify mmuSetNoNotifyO
    split_ifs <;> rfl
  have hovIff : ((s.tima + 1) % 256 = 0) ↔ (s.tima = 255) := by omega
  have hio : ∀ (b : Bool) (c t d : Nat),
      mmuAt { s with interruptsEnabled := b, cpuClock := c, tima := t, timaDelay := d } ifAddr
        = mmuAt s ifAddr :=
    fun _ _ _ _ => rfl
  rcases hsig01 with hsig | hsig <;>
  by_cases hd : s.timaDelay = 1 <;>
  by_cases hov : s.tima = 255 <;>
  by_cases hie : s.interruptsEnabled = true <;>
  by_cases hmask : mmuAt s ieAddr &&& 0x04 = 0x04 <;>
    simp [timersStep, hovIff, hsig, hd, hov, hie, hmask, hrt, hpt, hpd, hio] <;>
    omega

/-- Witness for C3 on the spec's TIMA-overflow seed scenario: TAC =
`0x05`, TIMA = `0xFF`, TMA = `0x42`, IE bit-2 and master interrupts on,
IF = 0, one bit-3 falling edge (clock 15 → 16): TIMA becomes `0x42` and
IF bit-2 is raised. -/
theorem c3_tima_falling_edge_witness :
    gbC3.tima < 256
    ∧ (timersStep (mmuAt gbC3 tacAddr) gbC3).tima = 0x42
    ∧ (timersStep (mmuAt gbC3 tacAddr) gbC3).timaDelay = 0
    ∧ mmuAt (timersStep (mmuAt gbC3 tacAddr) gbC3) ifAddr = 0x04 :=
  ⟨by decide,
    (c3_tima_falling_edge gbC3 (by decide)).1.trans (by decide),
    (c3_tima_falling_edge gbC3 (by decide)).2.1.trans (by decide),
    (c3_tima_falling_edge gbC3 (by decide)).2.2.trans (by decide)⟩

/-- Witness for C6 at the VRAM address `0x8123`. -/
theorem c6_read_after_write_owned_witness :
    ownedRegion 0x8123
    ∧ mmuAt ((mmuSet gb0 0x8123 0x55).getD gb0) 0x8123 = observedValue 0x8123 0x55 :=
  ⟨by decide,
    c6_read_after_write_owned gb0 0x8123 0x55 ((mmuSet gb0 0x8123 0x55).getD gb0)
      (by decide) rfl⟩

end Gopherboy
